import Mathlib

/-!
# Demo.h — the type-recovery output for Demo.exe

`subjects/PE/x86/demo_upx/Demo.reko/Demo.h` is the header the decompiler
emitted for `Demo.exe`.  It has three parts:

* the *Equivalence classes* table (lines 6–27): one entry per class, giving
  the class's resolved data type and its member type variables;
* the *Type Variables* table (lines 28–92): one entry per type variable,
  giving the expression it stands for, its `Class:`, `DataType:` and
  `OrigDataType:` fields;
* the C declarations (lines 94–110): one `typedef` per emitted class.

The file is embedded below entry by entry, in file order, and the properties
of the inference result are stated and proved over that embedding.
-/

namespace Demo

/-! ## Data model -/

/-- A type variable name: `globals_t` or `T_n`. -/
inductive TypeVariable where
  | globals_t
  | T (n : Nat)
  deriving DecidableEq, Repr

/-- The expression a type variable stands for (the text between `in` and `:`). -/
inductive Expr where
  /-- An identifier: `globals`, `ExitProcess`, `uExitCode`, ... -/
  | id (name : String)
  /-- The text `signature of P`. -/
  | signatureOf (proc : String)
  /-- A 32-bit constant, printed as `0x` and eight hex digits. -/
  | const (value : Nat)
  /-- A call `P(a, b, ...)`; the arguments are kept as printed. -/
  | call (proc : String) (args : List String)
  deriving DecidableEq, Repr

/-- A leaf type: a named type (`void`, `ptr32`, `word32`, `int32`, `UINT`,
`HWND`, `LPCSTR`, `CHAR`), a class reference `Eq_n`, or a type variable. -/
inductive Ty where
  | prim (name : String)
  | eqClass (n : Nat)
  | tv (v : TypeVariable)
  deriving DecidableEq, Repr

/-- A struct field `(offset type name)`; the offset is printed in hex. -/
structure Field where
  offset : Nat
  ty : Ty
  name : String
  deriving DecidableEq, Repr

/-- A union alternative `(type name)`. -/
structure Alternative where
  ty : Ty
  name : String
  deriving DecidableEq, Repr

/-- A data type as printed inside the comment block of the header. -/
inductive DataType where
  /-- A leaf type. -/
  | ty (t : Ty)
  /-- A 32-bit pointer `(ptr32 t)`. -/
  | ptr32 (target : DataType)
  /-- A function type `(fn ret (p1, p2, ...))`. -/
  | fn (ret : Ty) (params : List Ty)
  /-- A struct mentioned by name only: `(struct "Globals")`. -/
  | structRef (name : String)
  /-- A struct with its fields: `(struct "Globals" (403000 CHAR t403000) ...)`. -/
  | struct (name : String) (fields : List Field)
  /-- A union, named (`(union "Eq_4" ...)`) or not (`(union ...)`). -/
  | union (name : Option String) (alts : List Alternative)
  deriving DecidableEq, Repr

/-- A member line of the class table: `T_n (in expr : type)`. -/
structure Member where
  name : TypeVariable
  expr : Expr
  ty : DataType
  deriving DecidableEq, Repr

/-- An entry of the class table: `Eq_n: type` followed by its member lines. -/
structure EquivalenceClass where
  id : Nat
  dataType : DataType
  members : List Member
  deriving DecidableEq, Repr

/-- An entry of the type variable table. An empty `OrigDataType:` is `none`. -/
structure TypeVar where
  name : TypeVariable
  expr : Expr
  ty : DataType
  eqClass : Nat
  dataType : DataType
  origDataType : Option DataType
  deriving DecidableEq, Repr

/-- A field of an emitted C struct: `type name; // offset`. -/
structure CField where
  ty : Ty
  name : String
  offset : Nat
  deriving DecidableEq, Repr

/-- The body of an emitted `typedef`. -/
inductive Declarator where
  /-- The form `typedef struct Tag { fields } Eq_n;`. -/
  | structBody (tag : String) (fields : List CField)
  /-- The form `typedef ret (Eq_n)(params);`. -/
  | fnSig (ret : Ty) (params : List Ty)
  /-- The form `typedef union Tag { alternatives } Eq_n;`. -/
  | unionBody (tag : String) (alts : List Alternative)
  /-- The form `typedef t Eq_n;`. -/
  | alias (t : Ty)
  deriving DecidableEq, Repr

/-- An emitted `typedef` for class `Eq_name`, with the lines it occupies. -/
structure Typedef where
  firstLine : Nat
  lastLine : Nat
  name : Nat
  body : Declarator
  deriving DecidableEq, Repr

/-! ## The contents of Demo.h -/

/-- The printed text of the `MessageBoxA` call (T_15, and the argument of T_16). -/
def messageBoxCall : Expr :=
  .call "MessageBoxA" ["null", "&globals->t403000", "&globals->t403007", "0x00000000"]

/-- The hex digit of a value below sixteen. -/
def hexDigit (d : Nat) : Char :=
  if d < 10 then Char.ofNat (48 + d) else Char.ofNat (55 + d)

/-- The last `k` hex digits of `n`, most significant first. -/
def hexDigits : Nat → Nat → List Char
  | 0, _ => []
  | k + 1, n => hexDigits k (n / 16) ++ [hexDigit (n % 16)]

/-- The printed text of an expression. -/
def Expr.text : Expr → String
  | .id n => n
  | .signatureOf p => "signature of " ++ p
  | .const v => "0x" ++ String.mk (hexDigits 8 v)
  | .call p args => p ++ "(" ++ ", ".intercalate args ++ ")"

/-! ### Equivalence classes, lines 6–27 -/

/-- Lines 7–8. -/
def Eq_1 : EquivalenceClass :=
  { id := 1
    dataType := .struct "Globals"
      [⟨0x403000, .prim "CHAR", "t403000"⟩, ⟨0x403007, .prim "CHAR", "t403007"⟩]
    members := [⟨.globals_t, .id "globals", .ptr32 (.structRef "Globals")⟩] }

/-- Lines 9–11. -/
def Eq_2 : EquivalenceClass :=
  { id := 2
    dataType := .fn (.prim "void") [.eqClass 4]
    members :=
      [ ⟨.T 2, .id "ExitProcess", .ty (.prim "ptr32")⟩,
        ⟨.T 3, .signatureOf "ExitProcess", .ty (.prim "void")⟩ ] }

/-- Lines 12–16. -/
def Eq_4 : EquivalenceClass :=
  { id := 4
    dataType := .union (some "Eq_4") [⟨.prim "int32", "u0"⟩, ⟨.prim "UINT", "u1"⟩]
    members :=
      [ ⟨.T 4, .id "uExitCode", .ty (.prim "UINT")⟩,
        ⟨.T 10, .id "uType", .ty (.prim "UINT")⟩,
        ⟨.T 14, .const 0x00000000, .ty (.prim "word32")⟩,
        ⟨.T 15, messageBoxCall, .ty (.prim "int32")⟩ ] }

/-- Lines 17–19. -/
def Eq_5 : EquivalenceClass :=
  { id := 5
    dataType := .fn (.eqClass 4) [.eqClass 7, .eqClass 8, .eqClass 8, .eqClass 4]
    members :=
      [ ⟨.T 5, .id "MessageBoxA", .ty (.prim "ptr32")⟩,
        ⟨.T 6, .signatureOf "MessageBoxA", .ty (.prim "void")⟩ ] }

/-- Lines 20–22. -/
def Eq_7 : EquivalenceClass :=
  { id := 7
    dataType := .ty (.prim "HWND")
    members :=
      [ ⟨.T 7, .id "hWnd", .ty (.prim "HWND")⟩,
        ⟨.T 11, .const 0x00000000, .ty (.prim "word32")⟩ ] }

/-- Lines 23–27. -/
def Eq_8 : EquivalenceClass :=
  { id := 8
    dataType := .ty (.prim "LPCSTR")
    members :=
      [ ⟨.T 8, .id "lpText", .ty (.prim "LPCSTR")⟩,
        ⟨.T 9, .id "lpCaption", .ty (.prim "LPCSTR")⟩,
        ⟨.T 12, .const 0x00403000, .ty (.prim "word32")⟩,
        ⟨.T 13, .const 0x00403007, .ty (.prim "word32")⟩ ] }

/-- The *Equivalence classes* table, in file order. -/
def classes : List EquivalenceClass :=
  [Eq_1, Eq_2, Eq_4, Eq_5, Eq_7, Eq_8]

/-! ### Type variables, lines 28–92 -/

/-- Lines 29–32. -/
def globals_t : TypeVar :=
  { name := .globals_t, expr := .id "globals", ty := .ptr32 (.structRef "Globals")
    eqClass := 1, dataType := .ptr32 (.ty (.eqClass 1))
    origDataType := some (.ptr32 (.structRef "Globals")) }

/-- Lines 33–36. -/
def T_2 : TypeVar :=
  { name := .T 2, expr := .id "ExitProcess", ty := .ty (.prim "ptr32")
    eqClass := 2, dataType := .ptr32 (.ty (.eqClass 2))
    origDataType := some (.ptr32 (.fn (.tv (.T 16)) [.tv (.T 15)])) }

/-- Lines 37–40. -/
def T_3 : TypeVar :=
  { name := .T 3, expr := .signatureOf "ExitProcess", ty := .ty (.prim "void")
    eqClass := 2, dataType := .ptr32 (.ty (.eqClass 2))
    origDataType := none }

/-- Lines 41–44. -/
def T_4 : TypeVar :=
  { name := .T 4, expr := .id "uExitCode", ty := .ty (.prim "UINT")
    eqClass := 4, dataType := .ty (.eqClass 4)
    origDataType := none }

/-- Lines 45–48. -/
def T_5 : TypeVar :=
  { name := .T 5, expr := .id "MessageBoxA", ty := .ty (.prim "ptr32")
    eqClass := 5, dataType := .ptr32 (.ty (.eqClass 5))
    origDataType := some (.ptr32
      (.fn (.tv (.T 15)) [.tv (.T 11), .tv (.T 12), .tv (.T 13), .tv (.T 14)])) }

/-- Lines 49–52. -/
def T_6 : TypeVar :=
  { name := .T 6, expr := .signatureOf "MessageBoxA", ty := .ty (.prim "void")
    eqClass := 5, dataType := .ptr32 (.ty (.eqClass 5))
    origDataType := none }

/-- Lines 53–56. -/
def T_7 : TypeVar :=
  { name := .T 7, expr := .id "hWnd", ty := .ty (.prim "HWND")
    eqClass := 7, dataType := .ty (.eqClass 7)
    origDataType := none }

/-- Lines 57–60. -/
def T_8 : TypeVar :=
  { name := .T 8, expr := .id "lpText", ty := .ty (.prim "LPCSTR")
    eqClass := 8, dataType := .ty (.eqClass 8)
    origDataType := none }

/-- Lines 61–64. -/
def T_9 : TypeVar :=
  { name := .T 9, expr := .id "lpCaption", ty := .ty (.prim "LPCSTR")
    eqClass := 8, dataType := .ty (.eqClass 8)
    origDataType := none }

/-- Lines 65–68. -/
def T_10 : TypeVar :=
  { name := .T 10, expr := .id "uType", ty := .ty (.prim "UINT")
    eqClass := 4, dataType := .ty (.eqClass 4)
    origDataType := none }

/-- Lines 69–72. -/
def T_11 : TypeVar :=
  { name := .T 11, expr := .const 0x00000000, ty := .ty (.prim "word32")
    eqClass := 7, dataType := .ty (.eqClass 7)
    origDataType := some (.ty (.prim "HWND")) }

/-- Lines 73–76. -/
def T_12 : TypeVar :=
  { name := .T 12, expr := .const 0x00403000, ty := .ty (.prim "word32")
    eqClass := 8, dataType := .ty (.eqClass 8)
    origDataType := some (.ty (.prim "LPCSTR")) }

/-- Lines 77–80. -/
def T_13 : TypeVar :=
  { name := .T 13, expr := .const 0x00403007, ty := .ty (.prim "word32")
    eqClass := 8, dataType := .ty (.eqClass 8)
    origDataType := some (.ty (.prim "LPCSTR")) }

/-- Lines 81–84. -/
def T_14 : TypeVar :=
  { name := .T 14, expr := .const 0x00000000, ty := .ty (.prim "word32")
    eqClass := 4, dataType := .ty (.prim "int32")
    origDataType := some (.ty (.prim "UINT")) }

/-- Lines 85–88. -/
def T_15 : TypeVar :=
  { name := .T 15, expr := messageBoxCall, ty := .ty (.prim "int32")
    eqClass := 4, dataType := .ty (.eqClass 4)
    origDataType := some (.union none [⟨.prim "int32", "u0"⟩, ⟨.prim "UINT", "u2"⟩]) }

/-- Lines 89–92. -/
def T_16 : TypeVar :=
  { name := .T 16, expr := .call "ExitProcess" [messageBoxCall.text], ty := .ty (.prim "void")
    eqClass := 16, dataType := .ty (.prim "void")
    origDataType := some (.ty (.prim "void")) }

/-- The *Type Variables* table, in file order. -/
def typeVariables : List TypeVar :=
  [globals_t, T_2, T_3, T_4, T_5, T_6, T_7, T_8, T_9, T_10, T_11, T_12, T_13, T_14, T_15, T_16]

/-! ### Declarations, lines 94–110 -/

/-- Lines 94–97. -/
def typedef_Eq_1 : Typedef :=
  { firstLine := 94, lastLine := 97, name := 1
    body := .structBody "Globals"
      [⟨.prim "CHAR", "t403000", 0x403000⟩, ⟨.prim "CHAR", "t403007", 0x403007⟩] }

/-- Line 99. -/
def typedef_Eq_2 : Typedef :=
  { firstLine := 99, lastLine := 99, name := 2
    body := .fnSig (.prim "void") [.eqClass 4] }

/-- Lines 101–104. -/
def typedef_Eq_4 : Typedef :=
  { firstLine := 101, lastLine := 104, name := 4
    body := .unionBody "Eq_4" [⟨.prim "int32", "u0"⟩, ⟨.prim "UINT", "u1"⟩] }

/-- Line 106. -/
def typedef_Eq_5 : Typedef :=
  { firstLine := 106, lastLine := 106, name := 5
    body := .fnSig (.eqClass 4) [.prim "HWND", .prim "LPCSTR", .prim "LPCSTR", .eqClass 4] }

/-- Line 108. -/
def typedef_Eq_7 : Typedef :=
  { firstLine := 108, lastLine := 108, name := 7
    body := .alias (.prim "HWND") }

/-- Line 110. -/
def typedef_Eq_8 : Typedef :=
  { firstLine := 110, lastLine := 110, name := 8
    body := .alias (.prim "LPCSTR") }

/-- The C declarations, in file order. -/
def typedefs : List Typedef :=
  [typedef_Eq_1, typedef_Eq_2, typedef_Eq_4, typedef_Eq_5, typedef_Eq_7, typedef_Eq_8]

/-! ## Lookups -/

/-- The class table entry of `Eq_n`, if the table has one. -/
def classEntry (n : Nat) : Option EquivalenceClass :=
  classes.find? (fun e => e.id = n)

/-- The resolved type the class table gives for `Eq_n`. -/
def resolvedType (n : Nat) : Option DataType :=
  (classEntry n).map (fun e => e.dataType)

/-- The type variable table entry of `v`. -/
def typeVar (v : TypeVariable) : Option TypeVar :=
  typeVariables.find? (fun t => t.name = v)

/-- The `Class:` field of `v`. -/
def classOf (v : TypeVariable) : Option Nat :=
  (typeVar v).map (fun t => t.eqClass)

/-- The class table entries that list `v` among their members. -/
def entriesListing (v : TypeVariable) : List EquivalenceClass :=
  classes.filter (fun e => v ∈ e.members.map (fun m => m.name))

/-- The types of the alternatives of class `Eq_n`, when it resolves to a union. -/
def unionAlternatives (n : Nat) : List Ty :=
  match resolvedType n with
  | some (.union _ alts) => alts.map (fun a => a.ty)
  | _ => []

/-! ## Call sites and signatures -/

/-- The call-site signature recorded for a call target: the function type under
the pointer of its `OrigDataType:` field. -/
def callSiteSignature (target : TypeVariable) : Option DataType :=
  match typeVar target with
  | some t =>
    match t.origDataType with
    | some (.ptr32 (.fn r ps)) => some (.fn r ps)
    | _ => none
  | none => none

/-- The resolved type of the class of a call target. -/
def functionType (target : TypeVariable) : Option DataType :=
  match classOf target with
  | some n => resolvedType n
  | none => none

/-- The return type of a function type. -/
def returnType : DataType → Option Ty
  | .fn r _ => some r
  | _ => none

/-- The parameter types of a function type. -/
def parameterTypes : DataType → List Ty
  | .fn _ ps => ps
  | _ => []

/-- The type variables passed as arguments at a call of `target`, by position. -/
def argumentVariables (target : TypeVariable) : List TypeVariable :=
  match callSiteSignature target with
  | some d => (parameterTypes d).filterMap (fun t => match t with | .tv v => some v | _ => none)
  | none => []

/-- The formal parameters of library procedure `proc`: the type variables that
follow `signature of proc` in the type variable table, as many as the function
type of its class has parameters. -/
def formalParameters (proc : String) : List TypeVar :=
  match typeVariables.dropWhile (fun t => t.expr ≠ .signatureOf proc) with
  | [] => []
  | sig :: rest =>
    rest.take (match resolvedType sig.eqClass with
      | some d => (parameterTypes d).length
      | none => 0)

/-- The library procedures whose signature is known. -/
def libraryProcedures : List String :=
  typeVariables.filterMap (fun t => match t.expr with | .signatureOf p => some p | _ => none)

/-- Whether type variable `v` is a formal parameter of a known library signature. -/
def isFormalParameter (v : TypeVariable) : Bool :=
  libraryProcedures.any (fun p => (formalParameters p).any (fun t => t.name = v))

/-! ## Substitution of type variables -/

/-- Collects a list of optional results; `none` if any is missing. -/
def allSome {α : Type} : List (Option α) → Option (List α)
  | [] => some []
  | none :: _ => none
  | some a :: rest =>
    match allSome rest with
    | some as => some (a :: as)
    | none => none

/-- Replaces the type variable of a leaf type by `σ`. -/
def Ty.subst (σ : TypeVariable → Option Ty) : Ty → Option Ty
  | .tv v => σ v
  | t => some t

/-- Replaces every type variable of a data type by `σ`. -/
def DataType.subst (σ : TypeVariable → Option Ty) : DataType → Option DataType
  | .ty t => (t.subst σ).map .ty
  | .ptr32 d => (d.subst σ).map .ptr32
  | .fn r ps =>
    match r.subst σ, allSome (ps.map (Ty.subst σ)) with
    | some r1, some ps1 => some (.fn r1 ps1)
    | _, _ => none
  | .structRef n => some (.structRef n)
  | .struct n fs =>
    (allSome (fs.map (fun f => (f.ty.subst σ).map (fun t => Field.mk f.offset t f.name)))).map
      (.struct n)
  | .union n alts =>
    (allSome (alts.map (fun a => (a.ty.subst σ).map (fun t => Alternative.mk t a.name)))).map
      (.union n)

/-- The class of `v`, as a reference to its resolved type: `Eq_n` when `v` has
`Class: Eq_n` and the class table resolves `Eq_n`. -/
def classRef (v : TypeVariable) : Option Ty :=
  match classOf v with
  | some n => if (resolvedType n).isSome then some (.eqClass n) else none
  | none => none

/-- The `DataType:` field of `v`, when it is a leaf type. -/
def dataTypeRef (v : TypeVariable) : Option Ty :=
  match typeVar v with
  | some t =>
    match t.dataType with
    | .ty d => some d
    | _ => none
  | none => none

/-- As `classRef`, but a variable whose class has no entry in the class table
stands for its own `DataType:` field. -/
def classRefOrDataType (v : TypeVariable) : Option Ty :=
  match typeVar v with
  | some t =>
    if (resolvedType t.eqClass).isSome then some (.eqClass t.eqClass)
    else
      match t.dataType with
      | .ty d => some d
      | _ => none
  | none => none

/-- The call targets: the type variables that carry a call-site signature. -/
def callTargets : List TypeVariable :=
  (typeVariables.filter (fun t => (callSiteSignature t.name).isSome)).map (fun t => t.name)

/-- The name of the procedure a call target stands for. -/
def procedureName (target : TypeVariable) : String :=
  match typeVar target with
  | some t =>
    match t.expr with
    | .id n => n
    | _ => ""
  | none => ""

/-- The type variables occurring in a data type, left to right. -/
def DataType.typeVariables : DataType → List TypeVariable
  | .ty (.tv v) => [v]
  | .ty _ => []
  | .ptr32 d => d.typeVariables
  | .fn r ps => (r :: ps).filterMap (fun t => match t with | .tv v => some v | _ => none)
  | .structRef _ => []
  | .struct _ fs => fs.filterMap (fun f => match f.ty with | .tv v => some v | _ => none)
  | .union _ alts => alts.filterMap (fun a => match a.ty with | .tv v => some v | _ => none)

/-- The type variables whose `OrigDataType:` mentions `v`. -/
def usesOf (v : TypeVariable) : List TypeVariable :=
  (typeVariables.filter (fun t =>
    match t.origDataType with
    | some d => v ∈ d.typeVariables
    | none => false)).map (fun t => t.name)

/-- The value of a type variable that stands for a constant. -/
def constValue (t : TypeVar) : Option Nat :=
  match t.expr with
  | .const v => some v
  | _ => none

/-! ## Resolved types -/

/-- The size-only types, which say how wide a value is but not what it is. -/
def isSizeOnly (name : String) : Bool :=
  name = "word32" || name = "ptr32" || name = "void"

/-- The distinct concrete primitive types carried by the members of a class. -/
def concreteMemberTypes (e : EquivalenceClass) : List Ty :=
  (e.members.filterMap (fun m =>
    match m.ty with
    | .ty (.prim n) => if isSizeOnly n then none else some (.prim n)
    | _ => none)).dedup

/-- Whether a data type is a union. -/
def isUnion : DataType → Bool
  | .union _ _ => true
  | _ => false

/-- The fields of a data type, when it is a struct with fields. -/
def structFields : Option DataType → List Field
  | some (.struct _ fs) => fs
  | _ => []

/-- Whether a data type is a function of exactly two parameters returning `void`. -/
def isTwoArgumentVoidFunction : Option DataType → Bool
  | some (.fn r ps) => r = .prim "void" && ps.length = 2
  | _ => false

/-- Modelled from the spec: the byte width of `CHAR`, whose declaration is not
part of the header. The spec gives the two fields of the aggregate a width of
one byte each ("1 byte at 0, 1 byte at 7"). No other width is assumed. -/
def byteWidth : Ty → Option Nat
  | .prim "CHAR" => some 1
  | _ => none

/-- The resolved type kinds of the spec's data model that the library types of
the header denote: `Primitive(width)` and `Pointer(target)`. -/
inductive ResolvedType where
  | primitive (bits : Nat)
  | pointer (target : ResolvedType)
  deriving DecidableEq, Repr

/-- Modelled from the spec: what the library type names stand for, their
declarations not being part of the header. The declared type of the 2nd
parameter of the message-box routine (`LPCSTR`) is "Pointer(Primitive(8-bit))
i.e., a string-like byte pointer", and `CHAR` is the 8-bit primitive such a
pointer points at ("1 byte at 0, 1 byte at 7"). No other name is assumed. -/
def libraryType : String → Option ResolvedType
  | "LPCSTR" => some (.pointer (.primitive 8))
  | "CHAR" => some (.primitive 8)
  | _ => none

/-- The resolved type kind a leaf type denotes, when it is a library type name. -/
def Ty.denotes : Ty → Option ResolvedType
  | .prim n => libraryType n
  | _ => none

/-- The resolved type kind a class of the table resolves to, when the table
gives it a library type name. -/
def resolvedKind (n : Nat) : Option ResolvedType :=
  match resolvedType n with
  | some (.ty t) => t.denotes
  | _ => none

/-- The bytes between consecutive fields that belong to no field. -/
def padding : List Field → List Nat
  | f :: g :: rest =>
    (g.offset - (f.offset + (byteWidth f.ty).getD 0)) :: padding (g :: rest)
  | _ => []

/-! ## Declarations -/

/-- The `typedef` that defines `Eq_n`, if any. -/
def typedefOf (n : Nat) : Option Typedef :=
  typedefs.find? (fun d => d.name = n)

/-- The data type a `typedef` declares. -/
def declaredType (d : Typedef) : DataType :=
  match d.body with
  | .structBody tag fs => .struct tag (fs.map (fun f => Field.mk f.offset f.ty f.name))
  | .fnSig r ps => .fn r ps
  | .unionBody tag alts => .union (some tag) alts
  | .alias t => .ty t

/-- Replaces a reference to an alias class (one that resolves to a leaf type)
by that type. -/
def Ty.expand : Ty → Ty
  | .eqClass n =>
    match resolvedType n with
    | some (.ty t) => t
    | _ => .eqClass n
  | t => t

/-- Replaces the references to alias classes inside a data type. -/
def DataType.expand : DataType → DataType
  | .ty t => .ty t.expand
  | .ptr32 d => .ptr32 d.expand
  | .fn r ps => .fn r.expand (ps.map Ty.expand)
  | .structRef n => .structRef n
  | .struct n fs => .struct n (fs.map (fun f => Field.mk f.offset f.ty.expand f.name))
  | .union n alts => .union n (alts.map (fun a => Alternative.mk a.ty.expand a.name))

/-- The class a leaf type refers to. -/
def Ty.classRefs : Ty → List Nat
  | .eqClass n => [n]
  | _ => []

/-- The classes used inside a `typedef`, as return, parameter, field or
alternative type. -/
def usedClasses (d : Typedef) : List Nat :=
  match d.body with
  | .structBody _ fs => fs.flatMap (fun f => f.ty.classRefs)
  | .fnSig r ps => (r :: ps).flatMap Ty.classRefs
  | .unionBody _ alts => alts.flatMap (fun a => a.ty.classRefs)
  | .alias t => t.classRefs

/-! ## The text of Demo.h -/

/-- The lines of `Demo.h`, verbatim, line 1 first. -/
def sourceLines : List String :=
  [ "// Demo.h",
    "// Generated by decompiling Demo.exe",
    "// using Reko decompiler version 0.9.1.0.",
    "",
    "/*",
    "// Equivalence classes ////////////",
    "Eq_1: (struct \"Globals\" (403000 CHAR t403000) (403007 CHAR t403007))",
    "\tglobals_t (in globals : (ptr32 (struct \"Globals\")))",
    "Eq_2: (fn void (Eq_4))",
    "\tT_2 (in ExitProcess : ptr32)",
    "\tT_3 (in signature of ExitProcess : void)",
    "Eq_4: (union \"Eq_4\" (int32 u0) (UINT u1))",
    "\tT_4 (in uExitCode : UINT)",
    "\tT_10 (in uType : UINT)",
    "\tT_14 (in 0x00000000 : word32)",
    "\tT_15 (in MessageBoxA(null, &globals->t403000, &globals->t403007, 0x00000000) : int32)",
    "Eq_5: (fn Eq_4 (Eq_7, Eq_8, Eq_8, Eq_4))",
    "\tT_5 (in MessageBoxA : ptr32)",
    "\tT_6 (in signature of MessageBoxA : void)",
    "Eq_7: HWND",
    "\tT_7 (in hWnd : HWND)",
    "\tT_11 (in 0x00000000 : word32)",
    "Eq_8: LPCSTR",
    "\tT_8 (in lpText : LPCSTR)",
    "\tT_9 (in lpCaption : LPCSTR)",
    "\tT_12 (in 0x00403000 : word32)",
    "\tT_13 (in 0x00403007 : word32)",
    "// Type Variables ////////////",
    "globals_t: (in globals : (ptr32 (struct \"Globals\")))",
    "  Class: Eq_1",
    "  DataType: (ptr32 Eq_1)",
    "  OrigDataType: (ptr32 (struct \"Globals\"))",
    "T_2: (in ExitProcess : ptr32)",
    "  Class: Eq_2",
    "  DataType: (ptr32 Eq_2)",
    "  OrigDataType: (ptr32 (fn T_16 (T_15)))",
    "T_3: (in signature of ExitProcess : void)",
    "  Class: Eq_2",
    "  DataType: (ptr32 Eq_2)",
    "  OrigDataType: ",
    "T_4: (in uExitCode : UINT)",
    "  Class: Eq_4",
    "  DataType: Eq_4",
    "  OrigDataType: ",
    "T_5: (in MessageBoxA : ptr32)",
    "  Class: Eq_5",
    "  DataType: (ptr32 Eq_5)",
    "  OrigDataType: (ptr32 (fn T_15 (T_11, T_12, T_13, T_14)))",
    "T_6: (in signature of MessageBoxA : void)",
    "  Class: Eq_5",
    "  DataType: (ptr32 Eq_5)",
    "  OrigDataType: ",
    "T_7: (in hWnd : HWND)",
    "  Class: Eq_7",
    "  DataType: Eq_7",
    "  OrigDataType: ",
    "T_8: (in lpText : LPCSTR)",
    "  Class: Eq_8",
    "  DataType: Eq_8",
    "  OrigDataType: ",
    "T_9: (in lpCaption : LPCSTR)",
    "  Class: Eq_8",
    "  DataType: Eq_8",
    "  OrigDataType: ",
    "T_10: (in uType : UINT)",
    "  Class: Eq_4",
    "  DataType: Eq_4",
    "  OrigDataType: ",
    "T_11: (in 0x00000000 : word32)",
    "  Class: Eq_7",
    "  DataType: Eq_7",
    "  OrigDataType: HWND",
    "T_12: (in 0x00403000 : word32)",
    "  Class: Eq_8",
    "  DataType: Eq_8",
    "  OrigDataType: LPCSTR",
    "T_13: (in 0x00403007 : word32)",
    "  Class: Eq_8",
    "  DataType: Eq_8",
    "  OrigDataType: LPCSTR",
    "T_14: (in 0x00000000 : word32)",
    "  Class: Eq_4",
    "  DataType: int32",
    "  OrigDataType: UINT",
    "T_15: (in MessageBoxA(null, &globals->t403000, &globals->t403007, 0x00000000) : int32)",
    "  Class: Eq_4",
    "  DataType: Eq_4",
    "  OrigDataType: (union (int32 u0) (UINT u2))",
    "T_16: (in ExitProcess(MessageBoxA(null, &globals->t403000, &globals->t403007, 0x00000000)) : void)",
    "  Class: Eq_16",
    "  DataType: void",
    "  OrigDataType: void",
    "*/",
    "typedef struct Globals \x7b",
    "\tCHAR t403000;\t// 403000",
    "\tCHAR t403007;\t// 403007",
    "\x7d Eq_1;",
    "",
    "typedef void (Eq_2)(Eq_4);",
    "",
    "typedef union Eq_4 \x7b",
    "\tint32 u0;",
    "\tUINT u1;",
    "\x7d Eq_4;",
    "",
    "typedef Eq_4 (Eq_5)(HWND, LPCSTR, LPCSTR, Eq_4);",
    "",
    "typedef HWND Eq_7;",
    "",
    "typedef LPCSTR Eq_8;" ]

/-- A number in decimal. -/
def decimal (n : Nat) : String :=
  toString n

/-- A number in hex without leading zeros, for numbers of at most `k + 1` digits. -/
def hexText : Nat → Nat → List Char
  | 0, n => [hexDigit (n % 16)]
  | k + 1, n => if n < 16 then [hexDigit n] else hexText k (n / 16) ++ [hexDigit (n % 16)]

/-- The printed name of a type variable. -/
def TypeVariable.text : TypeVariable → String
  | .globals_t => "globals_t"
  | .T n => "T_" ++ decimal n

/-- The printed form of a leaf type. -/
def Ty.text : Ty → String
  | .prim n => n
  | .eqClass n => "Eq_" ++ decimal n
  | .tv v => v.text

/-- The printed form of a data type inside the comment block. -/
def DataType.text : DataType → String
  | .ty t => t.text
  | .ptr32 d => "(ptr32 " ++ d.text ++ ")"
  | .fn r ps => "(fn " ++ r.text ++ " (" ++ ", ".intercalate (ps.map Ty.text) ++ "))"
  | .structRef n => "(struct \"" ++ n ++ "\")"
  | .struct n fs =>
    "(struct \"" ++ n ++ "\"" ++
      String.join (fs.map (fun f =>
        " (" ++ String.mk (hexText 7 f.offset) ++ " " ++ f.ty.text ++ " " ++ f.name ++ ")")) ++ ")"
  | .union n alts =>
    "(union" ++ (match n with | some t => " \"" ++ t ++ "\"" | none => "") ++
      String.join (alts.map (fun a => " (" ++ a.ty.text ++ " " ++ a.name ++ ")")) ++ ")"

/-- The lines of a class table entry. -/
def EquivalenceClass.lines (e : EquivalenceClass) : List String :=
  ("Eq_" ++ decimal e.id ++ ": " ++ e.dataType.text) ::
    e.members.map (fun m =>
      "\t" ++ m.name.text ++ " (in " ++ m.expr.text ++ " : " ++ m.ty.text ++ ")")

/-- The lines of a type variable table entry. -/
def TypeVar.lines (t : TypeVar) : List String :=
  [ t.name.text ++ ": (in " ++ t.expr.text ++ " : " ++ t.ty.text ++ ")",
    "  Class: Eq_" ++ decimal t.eqClass,
    "  DataType: " ++ t.dataType.text,
    "  OrigDataType: " ++ (match t.origDataType with | some d => d.text | none => "") ]

/-- The lines of a `typedef`. -/
def Typedef.lines (d : Typedef) : List String :=
  match d.body with
  | .structBody tag fs =>
    ["typedef struct " ++ tag ++ " \x7b"] ++
      fs.map (fun f =>
        "\t" ++ f.ty.text ++ " " ++ f.name ++ ";\t// " ++ String.mk (hexText 7 f.offset)) ++
      ["\x7d Eq_" ++ decimal d.name ++ ";"]
  | .fnSig r ps =>
    ["typedef " ++ r.text ++ " (Eq_" ++ decimal d.name ++ ")(" ++
      ", ".intercalate (ps.map Ty.text) ++ ");"]
  | .unionBody tag alts =>
    ["typedef union " ++ tag ++ " \x7b"] ++
      alts.map (fun a => "\t" ++ a.ty.text ++ " " ++ a.name ++ ";") ++
      ["\x7d Eq_" ++ decimal d.name ++ ";"]
  | .alias t => ["typedef " ++ t.text ++ " Eq_" ++ decimal d.name ++ ";"]

/-- The lines of the whole header, as the three tables print. -/
def render : List String :=
  [ "// Demo.h",
    "// Generated by decompiling Demo.exe",
    "// using Reko decompiler version 0.9.1.0.",
    "",
    "/*",
    "// Equivalence classes ////////////" ] ++
  classes.flatMap EquivalenceClass.lines ++
  ["// Type Variables ////////////"] ++
  typeVariables.flatMap TypeVar.lines ++
  ["*/"] ++
  [""].intercalate (typedefs.map Typedef.lines)

/-! ## Theorems -/

set_option maxRecDepth 100000 in
/-- The embedding prints back, line for line, as the text of `Demo.h`, and
every `typedef` occupies the lines recorded for it. -/
theorem render_eq_sourceLines :
    render = sourceLines ∧
    ∀ d ∈ typedefs,
      (sourceLines.drop (d.firstLine - 1)).take (d.lastLine + 1 - d.firstLine) = d.lines := by
  decide


/-- C1 (as stated, refuted): it is not the case that every type variable of the
table is listed by exactly one class entry, that entry being its `Class:`.
`T_16` has class `Eq_16`, which has no entry, and no entry lists `T_16`. -/
theorem partition_complete_fails :
    ¬ (∀ t ∈ typeVariables, ∃ e ∈ classes,
        entriesListing t.name = [e] ∧ e.id = t.eqClass ∧
        resolvedType t.eqClass = some e.dataType) := by
  decide

/-- C1 (amended): every type variable other than `T_16` is listed by exactly one
class entry, that entry is the class named in its `Class:` field, and the table
gives that class a resolved type; `T_16` is in the type variable table with
class `Eq_16`, is listed by no entry, and `Eq_16` has no entry. -/
theorem partition_complete_except_T16 :
    (∀ t ∈ typeVariables, t.name ≠ .T 16 → ∃ e ∈ classes,
        entriesListing t.name = [e] ∧ e.id = t.eqClass ∧
        resolvedType t.eqClass = some e.dataType) ∧
    classOf (.T 16) = some 16 ∧ entriesListing (.T 16) = [] ∧ classEntry 16 = none := by
  decide

/-- The amended C1 applied to `T_15`, listed only by `Eq_4`. -/
theorem partition_complete_except_T16_witness :
    T_15 ∈ typeVariables ∧ T_15.name ≠ .T 16 ∧
    ∃ e ∈ classes, entriesListing T_15.name = [e] ∧ e.id = T_15.eqClass ∧
      resolvedType T_15.eqClass = some e.dataType :=
  ⟨by decide, by decide, partition_complete_except_T16.1 T_15 (by decide) (by decide)⟩

/-- C2 (as stated, refuted): two type variables with equal `Class:` fields need
not have equal `DataType:` fields. `T_4` and `T_14` are both in `Eq_4`; the
first has `DataType: Eq_4`, the second `DataType: int32`. -/
theorem class_members_share_dataType_fails :
    ¬ (∀ a ∈ typeVariables, ∀ b ∈ typeVariables,
        a.eqClass = b.eqClass → a.dataType = b.dataType) := by
  decide

/-- C2 (amended): two type variables with equal `Class:` fields have equal
`DataType:` fields whenever the class is not `Eq_4`; in general each of the two
`DataType:` fields is either the same as the other, or is the reference to the
class or one of the alternatives of the union the class resolves to (`T_14` has
`int32`, the alternative `u0` of `Eq_4`, while `T_4`, `T_10`, `T_15` have `Eq_4`). -/
theorem class_members_share_dataType_or_alternative :
    ∀ a ∈ typeVariables, ∀ b ∈ typeVariables, a.eqClass = b.eqClass →
      (a.eqClass ≠ 4 → a.dataType = b.dataType) ∧
      (a.dataType = b.dataType ∨
        ∀ t ∈ [a, b], t.dataType = .ty (.eqClass t.eqClass) ∨
          ∃ τ ∈ unionAlternatives t.eqClass, t.dataType = .ty τ) := by
  decide

/-- The amended C2 applied to `T_4` and `T_14`, both of `Eq_4`. -/
theorem class_members_share_dataType_or_alternative_witness :
    T_4 ∈ typeVariables ∧ T_14 ∈ typeVariables ∧ T_4.eqClass = T_14.eqClass ∧
    ((T_4.eqClass ≠ 4 → T_4.dataType = T_14.dataType) ∧
      (T_4.dataType = T_14.dataType ∨
        ∀ t ∈ [T_4, T_14], t.dataType = .ty (.eqClass t.eqClass) ∨
          ∃ τ ∈ unionAlternatives t.eqClass, t.dataType = .ty τ)) :=
  ⟨by decide, by decide, by decide,
    class_members_share_dataType_or_alternative T_4 (by decide) T_14 (by decide) (by decide)⟩

/-- C3 (as stated, refuted): replacing each type variable of a call-site
signature by the reference to its class's resolved type does not always yield
the function type of the target's class. For `ExitProcess` the signature is
`fn T_16 (T_15)`; the class `Eq_16` of `T_16` has no resolved type in the table,
while `Eq_2` is `fn void (Eq_4)`. Reading the type off each variable's
`DataType:` field instead fails for `MessageBoxA`: `T_14` has `int32` where
`Eq_5` has `Eq_4`. -/
theorem call_signature_by_class_fails :
    ¬ (∀ t ∈ callTargets,
        (functionType t).isSome ∧
        (callSiteSignature t).bind (DataType.subst classRef) = functionType t) ∧
    (callSiteSignature (.T 2)).bind (DataType.subst classRef) = none ∧
    ¬ (∀ t ∈ callTargets,
        (functionType t).isSome ∧
        (callSiteSignature t).bind (DataType.subst dataTypeRef) = functionType t) ∧
    (callSiteSignature (.T 5)).bind (DataType.subst dataTypeRef) =
      some (.fn (.eqClass 4) [.eqClass 7, .eqClass 8, .eqClass 8, .prim "int32"]) := by
  decide

/-- C3 (amended): the call targets are `T_2` (`ExitProcess`) and `T_5`
(`MessageBoxA`). For each, replacing every type variable of the call-site
signature by the reference to its class, or by the variable's own `DataType:`
when the class has no entry in the table (`T_16`: `void`), yields exactly the
function type of the target's class (`fn void (Eq_4)`, resp.
`fn Eq_4 (Eq_7, Eq_8, Eq_8, Eq_4)`); every argument variable's class has an entry
and is the parameter type at its position; and the argument variable at
position i has the same `Class:` as the formal parameter at position i
(`uExitCode`; `hWnd`, `lpText`, `lpCaption`, `uType`). -/
theorem call_edges_reflected :
    callTargets = [.T 2, .T 5] ∧
    functionType (.T 2) = some (.fn (.prim "void") [.eqClass 4]) ∧
    functionType (.T 5) =
      some (.fn (.eqClass 4) [.eqClass 7, .eqClass 8, .eqClass 8, .eqClass 4]) ∧
    (formalParameters "ExitProcess").map (fun f => f.expr) = [.id "uExitCode"] ∧
    (formalParameters "MessageBoxA").map (fun f => f.expr) =
      [.id "hWnd", .id "lpText", .id "lpCaption", .id "uType"] ∧
    ∀ t ∈ callTargets,
      (functionType t).isSome ∧
      (callSiteSignature t).bind (DataType.subst classRefOrDataType) = functionType t ∧
      some ((argumentVariables t).map classRef) =
        (functionType t).map (fun d => (parameterTypes d).map some) ∧
      (argumentVariables t).map classOf =
        (formalParameters (procedureName t)).map (fun f => some f.eqClass) := by
  decide

/-- The amended C3 applied to the call target `T_2`, `ExitProcess`. -/
theorem call_edges_reflected_witness :
    TypeVariable.T 2 ∈ callTargets ∧
    ((functionType (.T 2)).isSome ∧
      (callSiteSignature (.T 2)).bind (DataType.subst classRefOrDataType) =
        functionType (.T 2) ∧
      some ((argumentVariables (.T 2)).map classRef) =
        (functionType (.T 2)).map (fun d => (parameterTypes d).map some) ∧
      (argumentVariables (.T 2)).map classOf =
        (formalParameters (procedureName (.T 2))).map (fun f => some f.eqClass)) :=
  ⟨by decide, call_edges_reflected.2.2.2.2.2 (.T 2) (by decide)⟩

/-- C4 (as stated, refuted): a class that contains a formal parameter of a known
library signature does not always resolve to exactly that parameter's declared
type. `Eq_4` contains `uExitCode : UINT` and resolves to a union. -/
theorem signature_hint_exact_fails :
    ¬ (∀ e ∈ classes, ∀ m ∈ e.members, isFormalParameter m.name = true →
        e.dataType = m.ty) := by
  decide

/-- C4 (amended): the formal parameters of the known library signatures are
`uExitCode`, `hWnd`, `lpText`, `lpCaption`, `uType`; every class that contains
one of them resolves either to exactly that parameter's declared type (`Eq_7`,
`Eq_8`) or to a union that has the declared type as one of its alternatives
(`Eq_4`, alternative `UINT u1`). -/
theorem signature_hint_kept :
    ((typeVariables.filter (fun t => isFormalParameter t.name)).map (fun t => t.expr) =
      [.id "uExitCode", .id "hWnd", .id "lpText", .id "lpCaption", .id "uType"]) ∧
    ∀ e ∈ classes, ∀ m ∈ e.members, isFormalParameter m.name = true →
      e.dataType = m.ty ∨
        (isUnion e.dataType = true ∧ ∃ τ ∈ unionAlternatives e.id, m.ty = .ty τ) := by
  decide

/-- The amended C4 applied to `Eq_4` and its member `uExitCode : UINT`. -/
theorem signature_hint_kept_witness :
    Eq_4 ∈ classes ∧ Member.mk (.T 4) (.id "uExitCode") (.ty (.prim "UINT")) ∈ Eq_4.members ∧
    isFormalParameter (.T 4) = true ∧
    (Eq_4.dataType = .ty (.prim "UINT") ∨
      (isUnion Eq_4.dataType = true ∧
        ∃ τ ∈ unionAlternatives Eq_4.id, DataType.ty (.prim "UINT") = .ty τ)) :=
  ⟨by decide, by decide, by decide,
    signature_hint_kept.2 Eq_4 (by decide) ⟨.T 4, .id "uExitCode", .ty (.prim "UINT")⟩
      (by decide) (by decide)⟩

/-- C5: every class of the table whose members carry two or more distinct
concrete primitive types (`word32`, `ptr32`, `void` not counted) resolves to a
union whose alternatives are exactly those types, one each, and the `typedef`
emitted for the class is a union with the same tag, alternatives, field names
and order. -/
theorem conflict_preserved :
    ∀ e ∈ classes, 2 ≤ (concreteMemberTypes e).length →
      isUnion e.dataType = true ∧
      (∀ τ ∈ concreteMemberTypes e, τ ∈ unionAlternatives e.id) ∧
      (∀ τ ∈ unionAlternatives e.id, τ ∈ concreteMemberTypes e) ∧
      (unionAlternatives e.id).length = (concreteMemberTypes e).length ∧
      (typedefOf e.id).map declaredType = some e.dataType := by
  decide

/-- C5 applied to `Eq_4`, whose members carry `UINT` and `int32`. -/
theorem conflict_preserved_witness :
    Eq_4 ∈ classes ∧ concreteMemberTypes Eq_4 = [.prim "UINT", .prim "int32"] ∧
    (isUnion Eq_4.dataType = true ∧
      (∀ τ ∈ concreteMemberTypes Eq_4, τ ∈ unionAlternatives Eq_4.id) ∧
      (∀ τ ∈ unionAlternatives Eq_4.id, τ ∈ concreteMemberTypes Eq_4) ∧
      (unionAlternatives Eq_4.id).length = (concreteMemberTypes Eq_4).length ∧
      (typedefOf Eq_4.id).map declaredType = some Eq_4.dataType) :=
  ⟨by decide, by decide, conflict_preserved Eq_4 (by decide) (by decide)⟩

/-- C6: `T_15` stands for the value of the `MessageBoxA` call and is the sole
argument of the `ExitProcess` call; it is mentioned by the call-site signatures
of `T_2` and `T_5` only, as the single argument of the first and the return of
the second; and the return class of `Eq_5`, the single parameter class of
`Eq_2` and the class of `T_15` are all `Eq_4`. -/
theorem return_argument_unified :
    T_15.expr = messageBoxCall ∧
    T_16.expr = .call "ExitProcess" [T_15.expr.text] ∧
    usesOf (.T 15) = [.T 2, .T 5] ∧
    argumentVariables (.T 2) = [.T 15] ∧
    (callSiteSignature (.T 5)).bind returnType = some (.tv (.T 15)) ∧
    (functionType (.T 5)).bind returnType = some (.eqClass 4) ∧
    (functionType (.T 2)).map parameterTypes = some [.eqClass 4] ∧
    classOf (.T 15) = some 4 ∧
    (entriesListing (.T 15)).map (fun e => e.id) = [4] := by
  decide

/-- C7 (as stated, refuted): no call target of the header has a class that
resolves to a two-argument function returning `void`; in particular
`MessageBoxA` has four parameters and returns `Eq_4`. -/
theorem no_two_argument_void_target :
    ¬ (∃ t ∈ callTargets, ∃ l ∈ typeVariables,
        isTwoArgumentVoidFunction (functionType t) = true ∧
        (argumentVariables t)[1]? = some l.name) := by
  decide

/-- C7 (amended): `T_12`, the constant `0x00403000`, is the 2nd argument of the
call of `MessageBoxA`, a known library function of four parameters returning
`Eq_4` (not of two parameters returning `void`); the class of `T_12` is `Eq_8`,
which resolves to `LPCSTR`, that is to Pointer(Primitive(8-bit)), a string-like
byte pointer, equal to the declared type of the 2nd formal parameter
`lpText : LPCSTR`. The address `0x403000` it holds is the offset of a `CHAR`
field of `Globals`, an 8-bit primitive one byte wide. -/
theorem second_argument_resolves_to_byte_pointer :
    procedureName (.T 5) = "MessageBoxA" ∧
    (argumentVariables (.T 5))[1]? = some (.T 12) ∧
    T_12.expr = .const 0x00403000 ∧
    functionType (.T 5) =
      some (.fn (.eqClass 4) [.eqClass 7, .eqClass 8, .eqClass 8, .eqClass 4]) ∧
    isTwoArgumentVoidFunction (functionType (.T 5)) = false ∧
    classOf (.T 12) = some 8 ∧
    resolvedType 8 = some (.ty (.prim "LPCSTR")) ∧
    resolvedKind 8 = some (.pointer (.primitive 8)) ∧
    ((formalParameters "MessageBoxA")[1]?).map (fun f => (f.expr, f.ty)) =
      some (.id "lpText", .ty (.prim "LPCSTR")) ∧
    ((formalParameters "MessageBoxA")[1]?).map (fun f => some f.ty) =
      some (resolvedType 8) ∧
    ((formalParameters "MessageBoxA")[1]?).bind
        (fun f => match f.ty with | .ty t => t.denotes | _ => none) =
      resolvedKind 8 ∧
    ((structFields (resolvedType 1)).filter (fun f => some f.offset = constValue T_12)).map
      (fun f => (f.ty, f.ty.denotes, byteWidth f.ty)) =
      [(.prim "CHAR", some (.primitive 8), some 1)] := by
  decide

/-- C8: `Eq_1` resolves to the struct `Globals` with exactly one field per
address passed to `MessageBoxA` as `T_12` and `T_13` (`0x403000`, `0x403007`);
the fields are in strictly increasing offset order, each is a one-byte `CHAR`,
the offsets differ by 7 and the 6 bytes between them are covered by no field;
and the emitted `typedef struct Globals` lists the same fields, in the same
order, with the same offsets. -/
theorem globals_layout :
    resolvedType 1 = some (.struct "Globals" (structFields (resolvedType 1))) ∧
    (structFields (resolvedType 1)).map (fun f => f.offset) =
      [T_12, T_13].filterMap constValue ∧
    (structFields (resolvedType 1)).map (fun f => f.offset) = [0x403000, 0x403007] ∧
    argumentVariables (.T 5) = [.T 11, T_12.name, T_13.name, .T 14] ∧
    (structFields (resolvedType 1)).Pairwise (fun f g => f.offset < g.offset) ∧
    (∀ f ∈ structFields (resolvedType 1), f.ty = .prim "CHAR" ∧ byteWidth f.ty = some 1) ∧
    0x403007 - 0x403000 = 7 ∧
    padding (structFields (resolvedType 1)) = [6] ∧
    (∀ f ∈ structFields (resolvedType 1), ¬ (0x403000 < f.offset ∧ f.offset < 0x403007)) ∧
    (typedefOf 1).map declaredType = resolvedType 1 ∧
    (typedefOf 1).map (fun d => d.body) = some (.structBody "Globals"
      [⟨.prim "CHAR", "t403000", 0x403000⟩, ⟨.prim "CHAR", "t403007", 0x403007⟩]) := by
  decide

/-- The statement of C8 applied to the field at `0x403000`. -/
theorem globals_layout_witness :
    Field.mk 0x403000 (.prim "CHAR") "t403000" ∈ structFields (resolvedType 1) ∧
    (Ty.prim "CHAR" = .prim "CHAR" ∧ byteWidth (.prim "CHAR") = some 1) :=
  ⟨by decide, globals_layout.2.2.2.2.2.1 ⟨0x403000, .prim "CHAR", "t403000"⟩ (by decide)⟩

/-- C9: every entry of the class table has exactly one `typedef` named after
it, every `typedef` names a class of the table, and each `typedef` declares its
class's resolved type with the alias classes (`Eq_7` = `HWND`, `Eq_8` =
`LPCSTR`) replaced by their definitions, fields and parameters in the same
order. -/
theorem declarations_agree_with_classes :
    (∀ e ∈ classes,
      (typedefs.filter (fun d => d.name = e.id)).length = 1 ∧
      (typedefOf e.id).map declaredType = some e.dataType.expand) ∧
    (∀ d ∈ typedefs, (classEntry d.name).isSome) ∧
    Ty.expand (.eqClass 7) = .prim "HWND" ∧ Ty.expand (.eqClass 8) = .prim "LPCSTR" := by
  decide

/-- The statement of C9 applied to `Eq_5` and to its `typedef`. -/
theorem declarations_agree_with_classes_witness :
    Eq_5 ∈ classes ∧ typedef_Eq_5 ∈ typedefs ∧
    ((typedefs.filter (fun d => d.name = Eq_5.id)).length = 1 ∧
      (typedefOf Eq_5.id).map declaredType = some Eq_5.dataType.expand) ∧
    (classEntry typedef_Eq_5.name).isSome :=
  ⟨by decide, by decide, declarations_agree_with_classes.1 Eq_5 (by decide),
    declarations_agree_with_classes.2.1 typedef_Eq_5 (by decide)⟩

/-- C10 (as stated, refuted): a class used inside a `typedef` is not always
defined on an earlier line. The `typedef` of `Eq_2` on line 99 uses `Eq_4`,
which is defined on lines 101–104. -/
theorem declare_before_use_fails :
    ¬ (∀ d ∈ typedefs, ∀ n ∈ usedClasses d,
        ∃ d0 ∈ typedefs, d0.name = n ∧ d0.lastLine < d.firstLine) := by
  decide

/-- C10 (amended): the `typedef`s are emitted in increasing class number, each
on lines after the previous one, and every class used inside a `typedef` is
defined by a `typedef` of the file, which stands on an earlier line exactly when
its class number is smaller (`Eq_5` uses the earlier `Eq_4`; `Eq_2` uses the
later `Eq_4`). -/
theorem declared_somewhere_in_class_order :
    typedefs.Pairwise (fun a b => a.lastLine < b.firstLine ∧ a.name < b.name) ∧
    typedefs.map (fun d => d.name) = classes.map (fun e => e.id) ∧
    ∀ d ∈ typedefs, ∀ n ∈ usedClasses d,
      ∃ d0 ∈ typedefs, d0.name = n ∧ (d0.lastLine < d.firstLine ↔ n < d.name) := by
  decide

/-- The amended C10 applied to the `typedef` of `Eq_2` and its use of `Eq_4`. -/
theorem declared_somewhere_in_class_order_witness :
    typedef_Eq_2 ∈ typedefs ∧ 4 ∈ usedClasses typedef_Eq_2 ∧
    ∃ d0 ∈ typedefs, d0.name = 4 ∧ (d0.lastLine < typedef_Eq_2.firstLine ↔ 4 < typedef_Eq_2.name) :=
  ⟨by decide, by decide,
    declared_somewhere_in_class_order.2.2 typedef_Eq_2 (by decide) 4 (by decide)⟩

end Demo
